import Mathlib

/-!
Verification of the result-normalization, transient-cache and export subsystem
of the JobSpy web backend (`backend/app/services` and `backend/app/models`).

The Python services are shallowly embedded: pandas row values become the
inductive `PyValue`, rows become association lists, the in-memory cache becomes
an association list threaded explicitly through each operation, wall-clock time
becomes an explicit `Nat` parameter (seconds), Python floats are modelled as
rationals, and fallible Python code (exception raising) returns `Except`.
-/

namespace JobSpyWeb

/-- A value held in one cell of a pandas row, as observed by the service layer.
Python `None` and float NaN are distinguished because `str()` renders them
differently; Python floats are modelled as rationals. -/
inductive PyValue where
  | none
  | nan
  | str (s : String)
  | int (n : Int)
  | bool (b : Bool)
  | float (q : Rat)
  | date (year month day : Nat)
deriving DecidableEq

/-- `pd.notna(v)`: false exactly on `None` and NaN. -/
def pdNotna : PyValue → Bool
  | .none => false
  | .nan => false
  | _ => true

/-- Python `str(v)`. The float case approximates CPython float repr by the
rational printer; no verified claim observes the text of a float or date. -/
def pyStr : PyValue → String
  | .none => "None"
  | .nan => "nan"
  | .str s => s
  | .int n => toString n
  | .bool b => if b then "True" else "False"
  | .float q => toString q
  | .date y m d => toString y ++ "-" ++ toString m ++ "-" ++ toString d

/-- Python truthiness `bool(v)` for the values the services apply it to. -/
def pyBool : PyValue → Bool
  | .none => false
  | .nan => true
  | .str s => s ≠ ""
  | .int n => n ≠ 0
  | .bool b => b
  | .float q => q ≠ 0
  | .date _ _ _ => true

/-- Python `s.lower()` (ASCII-sufficient, matching `str.lower` on the site
names and error text involved; written over the character list so the kernel
can evaluate it). -/
def pyLower (s : String) : String :=
  String.mk (s.data.map Char.toLower)

/-- Python `s.strip()` over the character list. -/
def pyStrip (s : String) : List Char :=
  ((s.data.dropWhile Char.isWhitespace).reverse.dropWhile Char.isWhitespace).reverse

/-- Worker for `pySplit`: the fuel (initially the input length) never runs out
because every step consumes at least one character; it only exists to make the
recursion structural. -/
def pySplitAux (sep : List Char) : Nat → List Char → List Char → List (List Char)
  | 0, cs, acc => [acc.reverse ++ cs]
  | _ + 1, [], acc => [acc.reverse]
  | fuel + 1, c :: rest, acc =>
    if sep.isPrefixOf (c :: rest) then
      acc.reverse :: pySplitAux sep fuel (List.drop sep.length (c :: rest)) []
    else
      pySplitAux sep fuel rest (c :: acc)

/-- Python `s.split(sep)` for a non-empty separator: non-overlapping
occurrences scanned left to right, empty pieces kept. -/
def pySplit (s : String) (sep : String) : List String :=
  (pySplitAux sep.data s.data.length s.data []).map String.mk

/-- One raw row from the scraping DataFrame: column name to value. -/
abbrev Row := List (String × PyValue)

/-- First-match association-list lookup, the shared model of Python mapping
access (pandas rows and dicts have unique keys). -/
def assocLookup {β : Type} : List (String × β) → String → Option β
  | [], _ => Option.none
  | (k, v) :: rest, key => if k = key then some v else assocLookup rest key

/-- Lookup in a raw row. -/
def rowLookup (row : Row) (key : String) : Option PyValue :=
  assocLookup row key

/-- `row.get(key)`: `None` when the column is missing. -/
def rowGet (row : Row) (key : String) : PyValue :=
  (rowLookup row key).getD .none

/-- `row.get(key, default)`: the default only applies to a missing column;
a present-but-NaN cell is returned as is. -/
def rowGetD (row : Row) (key : String) (d : PyValue) : PyValue :=
  (rowLookup row key).getD d

/-! ## Transient result cache (`app/services/cache_service.py`) -/

/-- A cached batch: `CacheEntry` from `cache_service.py`. Job batches are kept
abstract at this layer (`α`); timestamps are seconds. -/
structure CacheEntry (α : Type) where
  jobs : List α
  timestamp : Nat
  search_metadata : List (String × String)
deriving DecidableEq

/-- `CacheEntry.is_expired`: `datetime.utcnow() > self.timestamp +
timedelta(minutes=ttl_minutes)`, with `now` the current time in seconds. -/
def CacheEntry.is_expired {α : Type} (e : CacheEntry α) (ttl_minutes : Nat) (now : Nat) : Bool :=
  e.timestamp + ttl_minutes * 60 < now

/-- The cache map `self._cache`, as an association list in insertion order. -/
abbrev Cache (α : Type) := List (String × CacheEntry α)

/-- `self._cache.get(k)`. -/
def dictGet {α : Type} (m : Cache α) (k : String) : Option (CacheEntry α) :=
  assocLookup m k

/-- Python dict indexing assignment `self._cache[k] = v`: overwrite in place
when the key exists, else append. -/
def dictSet {α : Type} (m : Cache α) (k : String) (v : CacheEntry α) : Cache α :=
  if (dictGet m k).isSome then
    m.map (fun p => if p.1 = k then (k, v) else p)
  else
    m ++ [(k, v)]

/-- `del self._cache[k]` (keys are unique in a Python dict, so removing every
pair with the key is the same operation). -/
def dictDel {α : Type} (m : Cache α) (k : String) : Cache α :=
  m.filter (fun p => p.1 ≠ k)

/-- `store_search_results`: unconditionally overwrite, stamping `now`. -/
def store_search_results {α : Type} (m : Cache α) (search_id : String)
    (jobs : List α) (search_metadata : List (String × String)) (now : Nat) : Cache α :=
  dictSet m search_id ⟨jobs, now, search_metadata⟩

/-- `get_search_results`: absent gives `none`; present-but-expired is lazily
evicted and gives `none`; otherwise the entry is returned, map untouched. -/
def get_search_results {α : Type} (m : Cache α) (search_id : String)
    (ttl now : Nat) : Option (CacheEntry α) × Cache α :=
  match dictGet m search_id with
  | Option.none => (Option.none, m)
  | some entry =>
    if entry.is_expired ttl now then
      (Option.none, dictDel m search_id)
    else
      (some entry, m)

/-- `remove_search_results`: true exactly when something was removed. -/
def remove_search_results {α : Type} (m : Cache α) (search_id : String) :
    Bool × Cache α :=
  if (dictGet m search_id).isSome then (true, dictDel m search_id) else (false, m)

/-- `_cleanup_expired_entries` (the eager sweep): drop every entry whose expiry
predicate holds at sweep time, returning the number removed. -/
def cleanup_expired_entries {α : Type} (m : Cache α) (ttl now : Nat) :
    Cache α × Nat :=
  ((m.filter fun p => !p.2.is_expired ttl now),
   (m.filter fun p => p.2.is_expired ttl now).length)

/-- `clear_cache`. -/
def clear_cache {α : Type} (_ : Cache α) : Cache α := []

/-- Python `round` at two decimals (banker's rounding, as CPython rounds). -/
def pythonRound2 (q : Rat) : Rat :=
  (bankersRound (q * 100) : Rat) / 100
where
  /-- Round to the nearest integer, ties to even. -/
  bankersRound (x : Rat) : Int :=
    let f : Int := ⌊x⌋
    let r : Rat := x - (f : Rat)
    if r < 1/2 then f else if 1/2 < r then f + 1 else if f % 2 = 0 then f else f + 1

/-- `_estimate_cache_size`: 2 KiB per cached job, reported in MiB. -/
def estimate_cache_size {α : Type} (m : Cache α) : Rat :=
  let totalJobs : Nat := (m.map (fun p => p.2.jobs.length)).sum
  pythonRound2 (((totalJobs * 2048 : Nat) : Rat) / (1024 * 1024))

/-- The dictionary returned by `get_cache_stats`. -/
structure CacheStats where
  total_entries : Nat
  active_entries : Nat
  expired_entries : Nat
  cache_size_mb : Rat
deriving DecidableEq

/-- `get_cache_stats`: counts under the lock; the map is not mutated, which the
model records by returning it unchanged alongside the statistics. -/
def get_cache_stats {α : Type} (m : Cache α) (ttl now : Nat) : CacheStats × Cache α :=
  let total_entries := m.length
  let expired_entries := (m.filter fun p => p.2.is_expired ttl now).length
  ({ total_entries := total_entries
     active_entries := total_entries - expired_entries
     expired_entries := expired_entries
     cache_size_mb := estimate_cache_size m }, m)

/-! ## Row normalizer (`JobSearchService._convert_row_to_webjobpost`) -/

/-- Structured location sub-object as constructed by the service
(`jobspy.model.Location` with string-typed country). -/
structure Location where
  city : Option String
  state : Option String
  country : Option String
deriving DecidableEq

/-- Modelled from the spec: the compensation-interval enumeration lives in the
external JobSpy library, not under `src/`; per §4.1 interval text is matched
case-sensitively against a closed enumeration of pay periods. -/
inductive CompensationInterval where
  | yearly
  | monthly
  | weekly
  | daily
  | hourly
deriving DecidableEq

/-- The textual `value` of each interval member. -/
def CompensationInterval.value : CompensationInterval → String
  | .yearly => "yearly"
  | .monthly => "monthly"
  | .weekly => "weekly"
  | .daily => "daily"
  | .hourly => "hourly"

/-- Iteration order of `for interval_enum in CompensationInterval`. -/
def CompensationInterval.all : List CompensationInterval :=
  [.yearly, .monthly, .weekly, .daily, .hourly]

/-- Compensation sub-object as constructed by the service. -/
structure Compensation where
  min_amount : Option Rat
  max_amount : Option Rat
  interval : Option CompensationInterval
  currency : String
deriving DecidableEq

/-- Modelled from the spec: the employment-type enumeration lives in the
external JobSpy library, not under `src/`. Its member tokens are the ones the
request validator in `app/models/search.py` accepts; per §4.1 each member
carries a tuple of localized synonyms whose first entry is the English token.
Only the English token is observable by the claims verified here, so the
synonym tails are not modelled. -/
inductive JobType where
  | fulltime
  | parttime
  | contract
  | temporary
  | internship
  | perdiem
  | nights
  | other
  | summer
  | volunteer
deriving DecidableEq

/-- The synonym tuple `JobType.value`, truncated to its English head. -/
def JobType.value : JobType → List String
  | .fulltime => ["fulltime"]
  | .parttime => ["parttime"]
  | .contract => ["contract"]
  | .temporary => ["temporary"]
  | .internship => ["internship"]
  | .perdiem => ["perdiem"]
  | .nights => ["nights"]
  | .other => ["other"]
  | .summer => ["summer"]
  | .volunteer => ["volunteer"]

/-- Iteration order of `for job_type_enum in JobType`. -/
def JobType.all : List JobType :=
  [.fulltime, .parttime, .contract, .temporary, .internship,
   .perdiem, .nights, .other, .summer, .volunteer]

/-- A calendar date as produced by `datetime.strptime(...).date()`. -/
structure PyDate where
  year : Nat
  month : Nat
  day : Nat
deriving DecidableEq

/-- The normalized domain record `WebJobPost` (`app/models/job.py`, extending
the library `JobPost` with `search_id`, `relevance_score` and `site`). The
field set is the one populated by `_convert_row_to_webjobpost`. -/
structure WebJobPost where
  id : String
  title : String
  company_name : Option String
  job_url : String
  job_url_direct : Option String
  location : Option Location
  description : Option String
  company_url : Option String
  company_url_direct : Option String
  job_type : Option (List JobType)
  compensation : Option Compensation
  date_posted : Option PyDate
  emails : Option (List String)
  is_remote : Option Bool
  listing_type : Option String
  job_level : Option String
  company_industry : Option String
  company_addresses : Option String
  company_num_employees : Option String
  company_revenue : Option String
  company_description : Option String
  company_logo : Option String
  banner_photo_url : Option String
  job_function : Option String
  skills : Option (List String)
  experience_range : Option String
  company_rating : Option Rat
  company_reviews_count : Option Int
  vacancy_count : Option Int
  work_from_home_type : Option String
  search_id : String
  relevance_score : Option Rat
  site : String
deriving DecidableEq

/-- A `WebJobPost` with every optional field absent, used only as the default
of total `Option`-eliminations in concrete witnesses. -/
def emptyWebJobPost : WebJobPost where
  id := ""
  title := ""
  company_name := Option.none
  job_url := ""
  job_url_direct := Option.none
  location := Option.none
  description := Option.none
  company_url := Option.none
  company_url_direct := Option.none
  job_type := Option.none
  compensation := Option.none
  date_posted := Option.none
  emails := Option.none
  is_remote := Option.none
  listing_type := Option.none
  job_level := Option.none
  company_industry := Option.none
  company_addresses := Option.none
  company_num_employees := Option.none
  company_revenue := Option.none
  company_description := Option.none
  company_logo := Option.none
  banner_photo_url := Option.none
  job_function := Option.none
  skills := Option.none
  experience_range := Option.none
  company_rating := Option.none
  company_reviews_count := Option.none
  vacancy_count := Option.none
  work_from_home_type := Option.none
  search_id := ""
  relevance_score := Option.none
  site := ""

/-- `True` while a character may occur in the digit run of a decimal literal. -/
def isDigitChar (c : Char) : Bool := c.isDigit

/-- Parse an unsigned decimal digit run. -/
def digitsToNat : List Char → Option Nat
  | [] => Option.none
  | cs => if cs.all isDigitChar then some (cs.foldl (fun n c => n * 10 + (c.toNat - 48)) 0) else Option.none

/-- Python `float(s)` on the strings this service can feed it: an optional
sign, then digits with at most one decimal point (scientific notation and
inf/nan literals are not produced by the scraping columns). Failure models the
`ValueError` that aborts the row. -/
def parseDecimalString (s : String) : Option Rat :=
  let cs := pyStrip s
  let parseUnsigned : List Char → Option Rat := fun ds =>
    match ds.splitOn '.' with
    | [whole] => (digitsToNat whole).map (fun n => (n : Rat))
    | [whole, frac] =>
      match digitsToNat (whole ++ frac), frac.length with
      | some n, k => some ((n : Rat) / ((10 : Rat) ^ k))
      | Option.none, _ => Option.none
    | _ => Option.none
  match cs with
  | '-' :: rest => (parseUnsigned rest).map (fun q => -q)
  | '+' :: rest => parseUnsigned rest
  | _ => parseUnsigned cs

/-- Python `float(v)` (coercion failure is the row-level error of §4.1). -/
def pyFloat : PyValue → Except String Rat
  | .int n => .ok (n : Rat)
  | .bool b => .ok (if b then 1 else 0)
  | .float q => .ok q
  | .str s =>
    match parseDecimalString s with
    | some q => .ok q
    | Option.none => .error ("could not convert string to float: " ++ s)
  | .nan => .ok 0
  | v => .error ("float() argument invalid: " ++ pyStr v)

/-- Truncation toward zero, as Python `int(float)`. -/
def ratTrunc (q : Rat) : Int :=
  if 0 ≤ q then ⌊q⌋ else ⌈q⌉

/-- Python `int(v)` (coercion failure is the row-level error of §4.1). -/
def pyInt : PyValue → Except String Int
  | .int n => .ok n
  | .bool b => .ok (if b then 1 else 0)
  | .float q => .ok (ratTrunc q)
  | .str s =>
    match digitsToNat (pyStrip s) with
    | some n => .ok (n : Int)
    | Option.none =>
      match pyStrip s with
      | '-' :: rest =>
        match digitsToNat rest with
        | some n => .ok (-(n : Int))
        | Option.none => .error ("invalid literal for int: " ++ s)
      | _ => .error ("invalid literal for int: " ++ s)
  | v => .error ("int() argument invalid: " ++ pyStr v)

/-- The recurring idiom `str(row.get(k)) if pd.notna(row.get(k)) else None`. -/
def optStrField (row : Row) (k : String) : Option String :=
  if pdNotna (rowGet row k) then some (pyStr (rowGet row k)) else Option.none

/-- The idiom `float(row.get(k)) if pd.notna(row.get(k)) else None`. -/
def optFloatField (row : Row) (k : String) : Except String (Option Rat) :=
  if pdNotna (rowGet row k) then (pyFloat (rowGet row k)).map some else .ok Option.none

/-- The idiom `int(row.get(k)) if pd.notna(row.get(k)) else None`. -/
def optIntField (row : Row) (k : String) : Except String (Option Int) :=
  if pdNotna (rowGet row k) then (pyInt (rowGet row k)).map some else .ok Option.none

/-- Location handling (service lines 220-231): split the free-text location on
`", "`; with fewer than two components the whole sub-object stays absent;
country falls back to `"USA"` when only two components exist. -/
def parseLocationField (v : PyValue) : Option Location :=
  if pdNotna v then
    let location_str := pyStr v
    let location_parts := pySplit location_str ", "
    if 2 ≤ location_parts.length then
      some { city := if 0 < location_parts.length then some (location_parts.getD 0 "") else Option.none
             state := if 1 < location_parts.length then some (location_parts.getD 1 "") else Option.none
             country := if 2 < location_parts.length then some (location_parts.getD 2 "") else some "USA" }
    else Option.none
  else Option.none

/-- Compensation handling (service lines 233-250): build the sub-object only
when min amount, max amount or interval is non-absent; interval text matches
the enumeration values by case-sensitive equality, first match wins; currency
defaults to `"USD"`. -/
def parseCompensationField (row : Row) : Except String (Option Compensation) :=
  if pdNotna (rowGet row "min_amount") || pdNotna (rowGet row "max_amount")
      || pdNotna (rowGet row "interval") then
    match optFloatField row "min_amount", optFloatField row "max_amount" with
    | .error e, _ => .error e
    | .ok _, .error e => .error e
    | .ok minAmount, .ok maxAmount =>
      .ok (some
        { min_amount := minAmount
          max_amount := maxAmount
          interval :=
            if pdNotna (rowGet row "interval") then
              CompensationInterval.all.find? (fun i => pyStr (rowGet row "interval") = i.value)
            else Option.none
          currency :=
            if pdNotna (rowGet row "currency") then pyStr (rowGetD row "currency" (.str "USD"))
            else "USD" })
  else .ok Option.none

/-- Employment-type handling (service lines 252-261): the lowercase token must
be truthy and differ from the `"None"` placeholder; it is then matched by
membership in each member's synonym tuple, first match wins. -/
def parseJobTypeField (v : PyValue) : Option (List JobType) :=
  if pdNotna v then
    let job_type_str := pyStr v
    if job_type_str ≠ "" ∧ job_type_str ≠ "None" then
      match JobType.all.find? (fun jt => job_type_str ∈ jt.value) with
      | some jt => some [jt]
      | Option.none => Option.none
    else Option.none
  else Option.none

/-- Strict `datetime.strptime(s, %Y-%m-%d)`, degraded to absent on failure. -/
def parseIsoDateString (s : String) : Option PyDate :=
  match pySplit s "-" with
  | [ys, ms, ds] =>
    match digitsToNat ys.data, digitsToNat ms.data, digitsToNat ds.data with
    | some y, some m, some d =>
      if 1 ≤ m ∧ m ≤ 12 ∧ 1 ≤ d ∧ d ≤ 31 then some ⟨y, m, d⟩ else Option.none
    | _, _, _ => Option.none
  | _ => Option.none

/-- Posting-date handling (service lines 263-272): a string is parsed strictly
and parse failure means absent; an actual date object passes through; any other
non-absent value fails the model validation of the constructed record, which is
the row-level error. -/
def parseDatePostedField : PyValue → Except String (Option PyDate)
  | .none => .ok Option.none
  | .nan => .ok Option.none
  | .str s => .ok (parseIsoDateString s)
  | .date y m d => .ok (some ⟨y, m, d⟩)
  | v => .error ("invalid date value: " ++ pyStr v)

/-- `_convert_row_to_webjobpost`: one raw row to one validated record, or a
row-level error. `fresh_id` stands for the `uuid4` suffix generated for a row
without an id column; the fallible numeric coercions appear in source order. -/
def convert_row_to_webjobpost (fresh_id : String) (row : Row) (search_id : String) :
    Except String WebJobPost :=
  match parseCompensationField row with
  | .error e => .error e
  | .ok compensation_data =>
    match parseDatePostedField (rowGet row "date_posted") with
    | .error e => .error e
    | .ok date_posted =>
      match optFloatField row "company_rating" with
      | .error e => .error e
      | .ok company_rating =>
        match optIntField row "company_reviews_count" with
        | .error e => .error e
        | .ok company_reviews_count =>
          match optIntField row "vacancy_count" with
          | .error e => .error e
          | .ok vacancy_count =>
            .ok
              { id := pyStr (rowGetD row "id" (.str ("job_" ++ fresh_id)))
                title := pyStr (rowGetD row "title" (.str "Unknown Title"))
                company_name := optStrField row "company_name"
                job_url := pyStr (rowGetD row "job_url" (.str ""))
                job_url_direct := optStrField row "job_url_direct"
                location := parseLocationField (rowGet row "location")
                description := optStrField row "description"
                company_url := optStrField row "company_url"
                company_url_direct := optStrField row "company_url_direct"
                job_type := parseJobTypeField (rowGet row "job_type")
                compensation := compensation_data
                date_posted := date_posted
                emails :=
                  if pdNotna (rowGet row "emails") ∧ pyStr (rowGet row "emails") ≠ "None" then
                    some (pySplit (pyStr (rowGet row "emails")) ", ")
                  else Option.none
                is_remote :=
                  if pdNotna (rowGet row "is_remote") then
                    some (pyBool (rowGetD row "is_remote" (.bool false)))
                  else Option.none
                listing_type := optStrField row "listing_type"
                job_level := optStrField row "job_level"
                company_industry := optStrField row "company_industry"
                company_addresses := optStrField row "company_addresses"
                company_num_employees := optStrField row "company_num_employees"
                company_revenue := optStrField row "company_revenue"
                company_description := optStrField row "company_description"
                company_logo := optStrField row "company_logo"
                banner_photo_url := optStrField row "banner_photo_url"
                job_function := optStrField row "job_function"
                skills :=
                  if pdNotna (rowGet row "skills") ∧ pyStr (rowGet row "skills") ≠ "None" then
                    some (pySplit (pyStr (rowGet row "skills")) ", ")
                  else Option.none
                experience_range := optStrField row "experience_range"
                company_rating := company_rating
                company_reviews_count := company_reviews_count
                vacancy_count := vacancy_count
                work_from_home_type := optStrField row "work_from_home_type"
                search_id := search_id
                relevance_score := Option.none
                site := pyStr (rowGetD row "site" (.str "unknown")) }

/-! ## Search orchestration (`JobSearchService`) -/

/-- `SearchMetadata` (`app/models/search.py`), with the timestamp in seconds
and the wall-clock duration as a rational. -/
structure SearchMetadata where
  search_id : String
  timestamp : Nat
  total_sites_searched : Nat
  successful_sites : List String
  failed_sites : List String
  search_duration : Rat
  total_results_found : Nat
deriving DecidableEq

/-- `JobSearchResponse` (`app/models/search.py`). -/
structure JobSearchResponse where
  jobs : List WebJobPost
  total_results : Nat
  search_metadata : SearchMetadata
  errors : List String
  warnings : List String
deriving DecidableEq

/-- The pydantic field validator `JobSearchResponse.validate_total_results`:
constructing a response whose count disagrees with the job list raises. -/
def validate_total_results (jobs : List WebJobPost) (v : Nat) : Except String Nat :=
  if jobs.length ≠ v then .error "total_results must match the number of jobs in the list"
  else .ok v

/-- Constructing a `JobSearchResponse` runs the field validator. -/
def mkJobSearchResponse (jobs : List WebJobPost) (total_results : Nat)
    (search_metadata : SearchMetadata) (errors warnings : List String) :
    Except String JobSearchResponse :=
  match validate_total_results jobs total_results with
  | .error e => .error e
  | .ok v => .ok ⟨jobs, v, search_metadata, errors, warnings⟩

/-- The row loop of `_process_search_results`: each row is converted
independently; a failure appends one error and continues. The conversion is a
parameter because each invocation draws its own fresh id. -/
def processRows (convert : Row → Except String WebJobPost) :
    List Row → List WebJobPost × List String
  | [] => ([], [])
  | row :: rest =>
    let (jobs, errors) := processRows convert rest
    match convert row with
    | .ok job => (job :: jobs, errors)
    | .error e => (jobs, ("Failed to process job: " ++ e) :: errors)

/-- `_process_search_results`: an empty DataFrame yields the no-jobs warning
and no error; otherwise every row is normalized independently. -/
def process_search_results (convert : Row → Except String WebJobPost)
    (rows : List Row) : List WebJobPost × List String × List String :=
  if rows.isEmpty then
    ([], [], ["No jobs found matching the search criteria"])
  else
    let (jobs, errors) := processRows convert rows
    (jobs, errors, [])

/-- Case-insensitive-ready substring test, Python `needle in haystack`. -/
def pySubstr (needle haystack : String) : Bool :=
  (List.range (haystack.length + 1)).any fun i =>
    needle.data.isPrefixOf (haystack.data.drop i)

/-- `_create_search_metadata`: a site is appended to `failed_sites` once per
error message containing its lowercased name; `successful_sites` keeps the
requested sites absent from that list. -/
def create_search_metadata (search_id : String) (start_time : Nat)
    (search_duration : Rat) (site_names : List String) (total_results : Nat)
    (errors : List String) : SearchMetadata :=
  let failed_sites :=
    errors.flatMap fun err => site_names.filter fun site => pySubstr (pyLower site) (pyLower err)
  let successful_sites := site_names.filter fun site => site ∉ failed_sites
  { search_id := search_id
    timestamp := start_time
    total_sites_searched := site_names.length
    successful_sites := successful_sites
    failed_sites := failed_sites
    search_duration := search_duration
    total_results_found := total_results }

/-- The response assembled by `search_jobs` after a completed search: the
record count is the length of the normalized batch. -/
def searchJobsResponse (convert : Row → Except String WebJobPost)
    (rows : List Row) (search_metadata : SearchMetadata) :
    Except String JobSearchResponse :=
  let (jobs, errors, warnings) := process_search_results convert rows
  mkJobSearchResponse jobs jobs.length search_metadata errors warnings

/-! ## Export projector (`app/services/export_service.py`) -/

/-- `ExportFormat` (`app/models/export.py`): a single supported format. -/
inductive ExportFormat where
  | csv
deriving DecidableEq

/-- The enum's string value. -/
def ExportFormat.value : ExportFormat → String
  | .csv => "csv"

/-- Membership iteration `format in ExportFormat`. -/
def ExportFormat.all : List ExportFormat := [.csv]

/-- `ExportMetadata` (`app/models/export.py`), timestamp in seconds. -/
structure ExportMetadata where
  export_id : String
  search_id : String
  format : ExportFormat
  total_jobs_exported : Nat
  export_timestamp : Nat
  file_size_bytes : Nat
  filename : String
deriving DecidableEq

/-- A Python `None` cell lifted from an optional string. -/
def cellOfStr : Option String → PyValue
  | some s => .str s
  | Option.none => .none

/-- A Python `None` cell lifted from an optional bool. -/
def cellOfBool : Option Bool → PyValue
  | some b => .bool b
  | Option.none => .none

/-- A Python `None` cell lifted from an optional float. -/
def cellOfRat : Option Rat → PyValue
  | some q => .float q
  | Option.none => .none

/-- A Python `None` cell lifted from an optional int. -/
def cellOfInt : Option Int → PyValue
  | some n => .int n
  | Option.none => .none

/-- `date_posted.isoformat()` as a cell, or `None`. -/
def cellOfDate : Option PyDate → PyValue
  | some d => .str (toString d.year ++ "-" ++ toString d.month ++ "-" ++ toString d.day)
  | Option.none => .none

/-- Python `", ".join(xs)`. -/
def joinCommaSpace (xs : List String) : String :=
  String.intercalate ", " xs

/-- The per-job dictionary built by `_jobs_to_dataframe`, with the keys in the
dictionary's insertion order. The two inclusion flags toggle the description
column and the company-detail column group. -/
def jobToRow (job : WebJobPost) (include_description include_company_details : Bool) :
    List (String × PyValue) :=
  [("job_id", .str job.id),
   ("title", .str job.title),
   ("company_name", cellOfStr job.company_name),
   ("job_url", .str job.job_url),
   ("site", .str job.site),
   ("date_posted", cellOfDate job.date_posted),
   ("is_remote", cellOfBool job.is_remote)]
  ++ (match job.location with
      | some loc =>
        [("location_city", cellOfStr loc.city),
         ("location_state", cellOfStr loc.state),
         ("location_country", cellOfStr loc.country)]
      | Option.none =>
        [("location_city", .none), ("location_state", .none), ("location_country", .none)])
  ++ (match job.compensation with
      | some comp =>
        [("salary_min", cellOfRat comp.min_amount),
         ("salary_max", cellOfRat comp.max_amount),
         ("salary_interval", cellOfStr (comp.interval.map CompensationInterval.value)),
         ("salary_currency", .str comp.currency)]
      | Option.none =>
        [("salary_min", .none), ("salary_max", .none),
         ("salary_interval", .none), ("salary_currency", .none)])
  ++ [("job_type",
       match job.job_type with
       | some jts => .str (joinCommaSpace (jts.map fun jt => (jt.value.getD 0 "")))
       | Option.none => .none)]
  ++ (if include_description then [("description", cellOfStr job.description)] else [])
  ++ (if include_company_details then
        [("company_url", cellOfStr job.company_url),
         ("company_industry", cellOfStr job.company_industry),
         ("company_num_employees", cellOfStr job.company_num_employees),
         ("company_revenue", cellOfStr job.company_revenue),
         ("company_rating", cellOfRat job.company_rating),
         ("company_reviews_count", cellOfInt job.company_reviews_count)]
      else [])
  ++ [("job_level", cellOfStr job.job_level),
      ("job_function", cellOfStr job.job_function),
      ("skills", cellOfStr (job.skills.map joinCommaSpace)),
      ("experience_range", cellOfStr job.experience_range),
      ("emails", cellOfStr (job.emails.map joinCommaSpace)),
      ("listing_type", cellOfStr job.listing_type),
      ("work_from_home_type", cellOfStr job.work_from_home_type),
      ("vacancy_count", cellOfInt job.vacancy_count)]

/-- `_jobs_to_dataframe`: one dictionary per job. -/
def jobs_to_dataframe (jobs : List WebJobPost)
    (include_description include_company_details : Bool) :
    List (List (String × PyValue)) :=
  jobs.map fun job => jobToRow job include_description include_company_details

/-- The column index of `pd.DataFrame(data)` built from a list of
dictionaries: keys in first-seen order. -/
def dataframeColumns (rows : List (List (String × PyValue))) : List String :=
  rows.foldl (fun acc r => r.foldl insertKey acc) []
where
  /-- Append a key unless already present. -/
  insertKey (acc : List String) (kv : String × PyValue) : List String :=
    if kv.1 ∈ acc then acc else acc ++ [kv.1]

/-- How a cell is written by `DataFrame.to_csv` (absent values are blank;
quoting of the commodity writer is not modelled, no claim observes it). -/
def csvCell : PyValue → String
  | .none => ""
  | .nan => ""
  | v => pyStr v

/-- The byte stream of `df.to_csv(index=False)`: header line first, then one
line per row in order. -/
def dfToCsv (rows : List (List (String × PyValue))) : String :=
  let columns := dataframeColumns rows
  let headerLine := String.intercalate "," columns
  let lines := rows.map fun r =>
    String.intercalate "," (columns.map fun c => csvCell ((rowLookup r c).getD .none))
  String.intercalate "\n" (headerLine :: lines) ++ "\n"

/-- `ExportService.validate_export_request`: an empty batch or an unsupported
format raises a validation error. -/
def validate_export_request (jobs : List WebJobPost) (export_format : ExportFormat) :
    Except String Bool :=
  if jobs.isEmpty then .error "Cannot export empty job list"
  else if export_format ∉ ExportFormat.all then .error "Unsupported export format"
  else .ok true

/-- The fixed column layout of the exported CSV, as a function of the two
inclusion flags alone. -/
def csvColumns (include_description include_company_details : Bool) : List String :=
  ["job_id", "title", "company_name", "job_url", "site", "date_posted", "is_remote",
   "location_city", "location_state", "location_country",
   "salary_min", "salary_max", "salary_interval", "salary_currency", "job_type"]
  ++ (if include_description then ["description"] else [])
  ++ (if include_company_details then
        ["company_url", "company_industry", "company_num_employees",
         "company_revenue", "company_rating", "company_reviews_count"]
      else [])
  ++ ["job_level", "job_function", "skills", "experience_range", "emails",
      "listing_type", "work_from_home_type", "vacancy_count"]

/-- `ExportService.export_jobs_to_csv`: an empty batch raises the export error
before any bytes are produced; otherwise the projected CSV text and fresh
metadata are returned. `export_uuid` stands for the generated `uuid4` suffix
and `now` for the generation instant. -/
def export_jobs_to_csv (jobs : List WebJobPost) (search_id : String)
    (include_description include_company_details : Bool)
    (filename : Option String) (export_uuid : String) (now : Nat) :
    Except String (String × ExportMetadata) :=
  if jobs.isEmpty then .error "No jobs to export"
  else
    let df := jobs_to_dataframe jobs include_description include_company_details
    let csv := dfToCsv df
    let generated_filename := filename.getD ("job_search_results_" ++ search_id)
    let generated_filename :=
      if generated_filename.endsWith ".csv" then generated_filename
      else generated_filename ++ ".csv"
    .ok (csv,
      { export_id := "export_" ++ export_uuid
        search_id := search_id
        format := .csv
        total_jobs_exported := jobs.length
        export_timestamp := now
        file_size_bytes := csv.utf8ByteSize
        filename := generated_filename })

/-- A source cell that denotes "no value": Python `None`, pandas NaN, or the
source's literal textual placeholder `"None"`. -/
def isAbsentOrPlaceholder (v : PyValue) : Prop :=
  v = .none ∨ v = .nan ∨ v = .str "None"

instance (v : PyValue) : Decidable (isAbsentOrPlaceholder v) := by
  unfold isAbsentOrPlaceholder
  infer_instance

/-! ## Evaluation helpers and concrete sample data for witnesses -/

/-- Whether an `Except` value is a success. -/
def exceptIsOk {ε α : Type} : Except ε α → Bool
  | .ok _ => true
  | .error _ => false

/-- Total elimination of an `Except` value. -/
def exceptGetD {ε α : Type} (e : Except ε α) (d : α) : α :=
  match e with
  | .ok a => a
  | .error _ => d

/-- A raw row whose location is a three-component string. -/
def sampleRowCity : Row :=
  [("title", .str "Engineer"), ("location", .str "San Francisco, CA, USA")]

/-- A raw row whose location is the single token of the spec scenario. -/
def sampleRowRemote : Row :=
  [("title", .str "Engineer"), ("location", .str "Remote")]

/-- The record normalized from `sampleRowCity`. -/
def sampleJobCity : WebJobPost :=
  exceptGetD (convert_row_to_webjobpost "w1" sampleRowCity "s1") emptyWebJobPost

/-- The record normalized from `sampleRowRemote`. -/
def sampleJobRemote : WebJobPost :=
  exceptGetD (convert_row_to_webjobpost "w2" sampleRowRemote "s1") emptyWebJobPost

/-- A raw row carrying the `"None"` textual placeholder in the employment-type,
interval and location columns. -/
def sampleRowPlaceholder : Row :=
  [("title", .str "Engineer"), ("job_type", .str "None"),
   ("interval", .str "None"), ("location", .str "None"), ("min_amount", .int 90000)]

/-- The record normalized from `sampleRowPlaceholder`. -/
def sampleJobPlaceholder : WebJobPost :=
  exceptGetD (convert_row_to_webjobpost "w3" sampleRowPlaceholder "s1") emptyWebJobPost

/-- A one-entry cache state, stamped at second 100. -/
def sampleCache : Cache Nat :=
  [("search_a", ⟨[1, 2], 100, []⟩)]

/-! ## Association-list lemmas -/

theorem assocLookup_append {β : Type} (m1 m2 : List (String × β)) (k : String) :
    assocLookup (m1 ++ m2) k =
      match assocLookup m1 k with
      | some v => some v
      | Option.none => assocLookup m2 k := by
  induction m1 with
  | nil => simp [assocLookup]
  | cons p rest ih =>
    obtain ⟨a, b⟩ := p
    by_cases hak : a = k <;> simp [assocLookup, hak, ih]

theorem assocLookup_overwrite {β : Type} (m : List (String × β)) (k : String) (v : β)
    (h : (assocLookup m k).isSome = true) :
    assocLookup (m.map fun p => if p.1 = k then (k, v) else p) k = some v := by
  induction m with
  | nil => simp [assocLookup] at h
  | cons p rest ih =>
    obtain ⟨a, b⟩ := p
    rw [List.map_cons]
    by_cases hak : a = k
    · subst hak
      have hf : (if ((a, b) : String × β).1 = a then (a, v) else (a, b)) = (a, v) := by simp
      rw [hf]
      simp [assocLookup]
    · have hf : (if ((a, b) : String × β).1 = k then (k, v) else (a, b)) = (a, b) := by
        simp [hak]
      rw [hf]
      have h2 : (assocLookup rest k).isSome = true := by
        simpa [assocLookup, hak] using h
      simpa [assocLookup, hak] using ih h2

theorem dictGet_dictSet_self {α : Type} (m : Cache α) (k : String) (v : CacheEntry α) :
    dictGet (dictSet m k v) k = some v := by
  by_cases h : (dictGet m k).isSome
  · unfold dictSet
    rw [if_pos h]
    exact assocLookup_overwrite m k v h
  · have hnone : assocLookup m k = Option.none := by
      cases hm : assocLookup m k
      · rfl
      · rw [dictGet, hm] at h
        simp at h
    unfold dictSet
    rw [if_neg h]
    show assocLookup (m ++ [(k, v)]) k = some v
    rw [assocLookup_append, hnone]
    simp [assocLookup]

theorem assocLookup_filter_none {β : Type} (m : List (String × β)) (k : String)
    (q : String × β → Bool) (h : assocLookup m k = Option.none) :
    assocLookup (m.filter q) k = Option.none := by
  induction m with
  | nil => simp [assocLookup]
  | cons p rest ih =>
    obtain ⟨a, b⟩ := p
    by_cases hak : a = k
    · simp [assocLookup, hak] at h
    · simp only [assocLookup, hak, if_false, ite_false] at h
      by_cases hq : q (a, b) <;> simp [List.filter, hq, assocLookup, hak, ih h]

theorem dictGet_dictDel_self {α : Type} (m : Cache α) (k : String) :
    dictGet (dictDel m k) k = Option.none := by
  induction m with
  | nil => simp [dictDel, dictGet, assocLookup]
  | cons p rest ih
    =>
    obtain ⟨a, b⟩ := p
    by_cases hak : a = k <;>
      simp_all [dictDel, dictGet, List.filter, assocLookup, hak]

theorem assocLookup_mem_keys {β : Type} (m : List (String × β)) (k : String) (v : β)
    (h : assocLookup m k = some v) : k ∈ m.map Prod.fst := by
  induction m with
  | nil => simp [assocLookup] at h
  | cons p rest ih =>
    obtain ⟨a, b⟩ := p
    by_cases hak : a = k
    · simp [hak]
    · simp only [assocLookup, hak, if_false, ite_false] at h
      simp [ih h]

theorem assocLookup_filter_of_nodup {β : Type} (m : List (String × β)) (k : String) (v : β)
    (q : String × β → Bool) (hkeys : (m.map Prod.fst).Nodup)
    (h : assocLookup m k = some v) :
    assocLookup (m.filter q) k = if q (k, v) then some v else Option.none := by
  induction m with
  | nil => simp [assocLookup] at h
  | cons p rest ih =>
    obtain ⟨a, b⟩ := p
    simp only [List.map_cons, List.nodup_cons] at hkeys
    obtain ⟨hnotmem, hrest⟩ := hkeys
    by_cases hak : a = k
    · subst hak
      simp only [assocLookup, if_pos rfl] at h
      cases h
      have hnone : assocLookup rest a = Option.none := by
        cases hr : assocLookup rest a
        · rfl
        · exact absurd (assocLookup_mem_keys rest a _ hr) hnotmem
      by_cases hq : q (a, v) <;>
        simp [List.filter, hq, assocLookup, assocLookup_filter_none rest a q hnone]
    · simp only [assocLookup, hak, if_false, ite_false] at h
      by_cases hq : q (a, b) <;>
        simp [List.filter, hq, assocLookup, hak, ih hrest h]

/-! ## Claim theorems: transient result cache -/

/-- C3: an entry is retrievable immediately after `store_search_results`; a
read strictly after creation time plus the TTL returns absent and deletes the
entry without any sweep; and on any present key the lazy (read-time) and eager
(sweep-time) eviction paths agree, both deciding liveness by
`CacheEntry.is_expired`. -/
theorem cache_put_get_ttl {α : Type} (m : Cache α) (search_id : String)
    (jobs : List α) (meta : List (String × String)) (now ttl t2 : Nat)
    (hlater : now + ttl * 60 < t2)
    (hkeys : (m.map Prod.fst).Nodup) :
    (get_search_results (store_search_results m search_id jobs meta now) search_id ttl now).1
        = some ⟨jobs, now, meta⟩
    ∧ (get_search_results (store_search_results m search_id jobs meta now) search_id ttl t2).1
        = Option.none
    ∧ dictGet
        (get_search_results (store_search_results m search_id jobs meta now) search_id ttl t2).2
        search_id = Option.none
    ∧ ((dictGet m search_id).isSome = true →
        (((get_search_results m search_id ttl now).1 = Option.none) ↔
          (dictGet (cleanup_expired_entries m ttl now).1 search_id = Option.none))) := by
  have hget := dictGet_dictSet_self m search_id (⟨jobs, now, meta⟩ : CacheEntry α)
  have hfresh : (⟨jobs, now, meta⟩ : CacheEntry α).is_expired ttl now = false := by
    simp [CacheEntry.is_expired]
  have hstale : (⟨jobs, now, meta⟩ : CacheEntry α).is_expired ttl t2 = true := by
    simpa [CacheEntry.is_expired] using hlater
  refine ⟨?_, ?_, ?_, ?_⟩
  · simp [get_search_results, store_search_results, hget, hfresh]
  · simp [get_search_results, store_search_results, hget, hstale]
  · simp [get_search_results, store_search_results, hget, hstale,
      dictGet_dictDel_self]
  · intro hsome
    obtain ⟨e, he⟩ := Option.isSome_iff_exists.mp hsome
    have he2 : assocLookup m search_id = some e := he
    have hfilter := assocLookup_filter_of_nodup m search_id e
      (fun p => !p.2.is_expired ttl now) hkeys he2
    have hq : ((fun p => !p.2.is_expired ttl now) ((search_id, e) : String × CacheEntry α))
        = !e.is_expired ttl now := rfl
    rw [hq] at hfilter
    cases hexp : e.is_expired ttl now
    · rw [hexp] at hfilter
      simp only [Bool.not_false, if_pos rfl] at hfilter
      simp [get_search_results, dictGet, he2, hexp, cleanup_expired_entries, hfilter]
    · rw [hexp] at hfilter
      simp only [Bool.not_true] at hfilter
      simp only [Bool.false_eq_true, if_false, ite_false] at hfilter
      simp [get_search_results, dictGet, he2, hexp, cleanup_expired_entries, hfilter]

/-- Witness for C3 at a concrete one-entry cache. -/
theorem cache_put_get_ttl_witness :
    (200 + 30 * 60 < 2001 ∧ (sampleCache.map Prod.fst).Nodup)
    ∧ ((get_search_results (store_search_results sampleCache "search_a" [3] [] 200)
          "search_a" 30 200).1 = some ⟨[3], 200, []⟩
      ∧ (get_search_results (store_search_results sampleCache "search_a" [3] [] 200)
          "search_a" 30 2001).1 = Option.none
      ∧ dictGet (get_search_results (store_search_results sampleCache "search_a" [3] [] 200)
          "search_a" 30 2001).2 "search_a" = Option.none
      ∧ ((dictGet sampleCache "search_a").isSome = true →
          (((get_search_results sampleCache "search_a" 30 200).1 = Option.none) ↔
            (dictGet (cleanup_expired_entries sampleCache 30 200).1 "search_a" = Option.none)))) :=
  ⟨⟨by omega, by simp [sampleCache]⟩,
   cache_put_get_ttl sampleCache "search_a" [3] [] 200 30 2001 (by omega)
     (by simp [sampleCache])⟩

/-- C6: for any identifier present in the cache (expired or not),
`remove_search_results` answers true, then false on a second call; and when
the present entry is additionally unexpired, `get_search_results` is
idempotent (same value, untouched state). -/
theorem cache_get_remove_idempotent {α : Type} (m : Cache α) (search_id : String)
    (e : CacheEntry α) (ttl now : Nat)
    (hlook : dictGet m search_id = some e) :
    (e.is_expired ttl now = false →
      get_search_results m search_id ttl now = (some e, m)
      ∧ (get_search_results (get_search_results m search_id ttl now).2 search_id ttl now).1
          = some e)
    ∧ (remove_search_results m search_id).1 = true
    ∧ (remove_search_results (remove_search_results m search_id).2 search_id).1 = false := by
  refine ⟨?_, ?_, ?_⟩
  · intro hlive
    have hfirst : get_search_results m search_id ttl now = (some e, m) := by
      simp [get_search_results, hlook, hlive]
    refine ⟨hfirst, ?_⟩
    rw [hfirst]
    simp [get_search_results, hlook, hlive]
  · simp [remove_search_results, hlook]
  · have hdel : (remove_search_results m search_id).2 = dictDel m search_id := by
      simp [remove_search_results, hlook]
    rw [hdel]
    simp [remove_search_results, dictGet_dictDel_self]

/-- Witness for C6 at a concrete one-entry cache, discharging both the
presence hypothesis and the unexpiredness antecedent of the get conjunct. -/
theorem cache_get_remove_idempotent_witness :
    (dictGet sampleCache "search_a" = some ⟨[1, 2], 100, []⟩
      ∧ (⟨[1, 2], 100, []⟩ : CacheEntry Nat).is_expired 30 200 = false)
    ∧ (get_search_results sampleCache "search_a" 30 200 = (some ⟨[1, 2], 100, []⟩, sampleCache)
      ∧ (get_search_results (get_search_results sampleCache "search_a" 30 200).2
          "search_a" 30 200).1 = some ⟨[1, 2], 100, []⟩
      ∧ (remove_search_results sampleCache "search_a").1 = true
      ∧ (remove_search_results (remove_search_results sampleCache "search_a").2
          "search_a").1 = false) := by
  have h := cache_get_remove_idempotent sampleCache "search_a"
    (⟨[1, 2], 100, []⟩ : CacheEntry Nat) 30 200
    (by simp [sampleCache, dictGet, assocLookup])
  exact ⟨⟨by simp [sampleCache, dictGet, assocLookup], by decide⟩,
    (h.1 (by decide)).1, (h.1 (by decide)).2, h.2.1, h.2.2⟩

/-- C10: the statistics report partitions the entries: the total is the active
count plus the expired count, the expired count counts exactly the entries
whose expiry predicate holds at the reading instant, and the map itself is
left unchanged. -/
theorem cache_stats_partition {α : Type} (m : Cache α) (ttl now : Nat) :
    (get_cache_stats m ttl now).1.total_entries
        = (get_cache_stats m ttl now).1.active_entries
          + (get_cache_stats m ttl now).1.expired_entries
    ∧ (get_cache_stats m ttl now).1.expired_entries
        = (m.filter fun p => p.2.is_expired ttl now).length
    ∧ (get_cache_stats m ttl now).1.active_entries
        = (m.filter fun p => !p.2.is_expired ttl now).length
    ∧ (get_cache_stats m ttl now).2 = m := by
  have hle : (m.filter fun p => p.2.is_expired ttl now).length ≤ m.length :=
    List.length_filter_le _ m
  have hsplit := List.length_eq_length_filter_add (l := m)
    (fun p => p.2.is_expired ttl now)
  refine ⟨?_, rfl, ?_, rfl⟩
  · simp only [get_cache_stats]
    omega
  · simp only [get_cache_stats]
    omega

/-! ## Claim theorems: search orchestration -/

theorem processRows_lengths (convert : Row → Except String WebJobPost) (rows : List Row) :
    (processRows convert rows).1.length
        = (rows.filter fun r => exceptIsOk (convert r)).length
    ∧ (processRows convert rows).2.length
        = (rows.filter fun r => !exceptIsOk (convert r)).length := by
  induction rows with
  | nil => simp [processRows]
  | cons r rest ih =>
    cases hc : convert r <;>
      simp [processRows, hc, exceptIsOk, List.filter, ih.1, ih.2]

theorem process_search_results_nonempty (convert : Row → Except String WebJobPost)
    (rows : List Row) (h : rows.isEmpty = false) :
    process_search_results convert rows
      = ((processRows convert rows).1, (processRows convert rows).2, []) := by
  unfold process_search_results
  rw [h]
  simp

/-- C1: for every batch of raw rows, the assembled response counts exactly the
rows that normalized successfully, every failed row contributes one
accumulated error instead of aborting the batch, and the response passes the
`validate_total_results` pydantic check with `total_results` equal to the
length of its job list. -/
theorem search_response_total_matches (convert : Row → Except String WebJobPost)
    (rows : List Row) (md : SearchMetadata) :
    (process_search_results convert rows).1.length
        = (rows.filter fun r => exceptIsOk (convert r)).length
    ∧ (process_search_results convert rows).2.1.length
        = (rows.filter fun r => !exceptIsOk (convert r)).length
    ∧ validate_total_results (process_search_results convert rows).1
        (process_search_results convert rows).1.length
        = .ok (process_search_results convert rows).1.length
    ∧ searchJobsResponse convert rows md
        = .ok ⟨(process_search_results convert rows).1,
               (process_search_results convert rows).1.length, md,
               (process_search_results convert rows).2.1,
               (process_search_results convert rows).2.2⟩ := by
  refine ⟨?_, ?_, ?_, ?_⟩
  · by_cases h : rows.isEmpty
    · rw [List.isEmpty_iff] at h
      subst h
      simp [process_search_results, processRows]
    · rw [process_search_results_nonempty convert rows (by simpa using h)]
      exact (processRows_lengths convert rows).1
  · by_cases h : rows.isEmpty
    · rw [List.isEmpty_iff] at h
      subst h
      simp [process_search_results, processRows]
    · rw [process_search_results_nonempty convert rows (by simpa using h)]
      exact (processRows_lengths convert rows).2
  · simp [validate_total_results]
  · unfold searchJobsResponse
    simp [mkJobSearchResponse, validate_total_results]

/-- C7: a search whose source returns zero rows is no error: no accumulated
error, a zero record count, and exactly the single warning whose text contains
the phrase "No jobs found". -/
theorem empty_result_is_warning (convert : Row → Except String WebJobPost)
    (md : SearchMetadata) :
    process_search_results convert []
        = ([], [], ["No jobs found matching the search criteria"])
    ∧ pySubstr "No jobs found" "No jobs found matching the search criteria" = true
    ∧ searchJobsResponse convert [] md
        = .ok ⟨[], 0, md, [], ["No jobs found matching the search criteria"]⟩ := by
  refine ⟨rfl, by decide, ?_⟩
  simp [searchJobsResponse, process_search_results, mkJobSearchResponse,
    validate_total_results]

/-! ## Claim theorems: per-source attribution metadata -/

theorem flatMap_filter_cons_length (m : String → String → Bool) (errors : List String)
    (s : String) (rest : List String) :
    (errors.flatMap fun e => ((s :: rest).filter fun x => m x e)).length
      = (errors.filter fun e => m s e).length
        + (errors.flatMap fun e => rest.filter fun x => m x e).length := by
  induction errors with
  | nil => simp
  | cons e es ih =>
    rw [List.flatMap_cons, List.length_append, ih, List.flatMap_cons,
      List.length_append, List.filter_cons, List.filter_cons]
    by_cases h : m s e = true
    · rw [if_pos h, if_pos h]
      simp only [List.length_cons]
      omega
    · rw [if_neg h, if_neg h]
      omega

theorem site_partition_of_unique_match (m : String → String → Bool) (errors : List String)
    (sn : List String)
    (h : ∀ s ∈ sn, (errors.filter fun e => m s e).length ≤ 1) :
    sn.length
      = (sn.filter fun s => !(errors.any fun e => m s e)).length
        + (errors.flatMap fun e => sn.filter fun x => m x e).length := by
  induction sn with
  | nil =>
    have hconst : (errors.flatMap fun _ => ([] : List String)) = [] := by
      induction errors with
      | nil => rfl
      | cons e es ih2 => simp [ih2]
    simp [List.filter_nil, hconst]
  | cons s rest ih =>
    have hs := h s (List.mem_cons_self s rest)
    have hrest : ∀ x ∈ rest, (errors.filter fun e => m x e).length ≤ 1 :=
      fun x hx => h x (List.mem_cons_of_mem s hx)
    have hmain := ih hrest
    rw [flatMap_filter_cons_length m errors s rest]
    cases hany : (errors.any fun e => m s e)
    · have hnone : (errors.filter fun e => m s e) = [] := by
        rw [List.filter_eq_nil_iff]
        intro e he hme
        exact absurd (List.any_eq_true.mpr ⟨e, he, hme⟩) (by simp [hany])
      rw [List.filter_cons]
      simp only [hany, Bool.not_false, if_true, ite_true, List.length_cons, hnone,
        List.length_nil]
      omega
    · have hpos : 0 < (errors.filter fun e => m s e).length := by
        obtain ⟨e, he, hme⟩ := List.any_eq_true.mp hany
        have : e ∈ errors.filter fun e => m s e := List.mem_filter.mpr ⟨he, hme⟩
        exact List.length_pos.mpr (List.ne_nil_of_mem this)
      rw [List.filter_cons]
      simp only [hany, Bool.not_true, Bool.false_eq_true, if_false, ite_false,
        List.length_cons]
      omega

theorem mem_failed_sites_iff (m : String → String → Bool) (errors sn : List String)
    (site : String) (hmem : site ∈ sn) :
    site ∈ (errors.flatMap fun e => sn.filter fun x => m x e)
      ↔ (errors.any fun e => m site e) = true := by
  rw [List.mem_flatMap, List.any_eq_true]
  constructor
  · rintro ⟨e, he, hf⟩
    exact ⟨e, he, (List.mem_filter.mp hf).2⟩
  · rintro ⟨e, he, hme⟩
    exact ⟨e, he, List.mem_filter.mpr ⟨hmem, hme⟩⟩

/-- C4 as stated fails: two accumulated error messages that both mention the
single requested source make `_create_search_metadata` append that source to
`failed_sites` twice, so `total_sites_searched` (1) differs from
`len(successful_sites) + len(failed_sites)` (0 + 2). -/
theorem metadata_site_partition_counterexample :
    (create_search_metadata "s1" 0 0 ["indeed"] 0
        ["indeed a", "indeed b"]).total_sites_searched
      ≠ (create_search_metadata "s1" 0 0 ["indeed"] 0
            ["indeed a", "indeed b"]).successful_sites.length
        + (create_search_metadata "s1" 0 0 ["indeed"] 0
            ["indeed a", "indeed b"]).failed_sites.length := by
  decide

/-- C4 amended: the partition `total_sites_searched = len(successful_sites) +
len(failed_sites)` holds whenever no requested source's lowercased name occurs
as a substring of more than one accumulated error message (otherwise
`failed_sites` gains one copy of a source per mentioning error). -/
theorem metadata_site_partition (search_id : String) (start_time : Nat)
    (search_duration : Rat) (site_names : List String) (total_results : Nat)
    (errors : List String)
    (honce : site_names.all
        (fun site =>
          (errors.filter fun err => pySubstr (pyLower site) (pyLower err)).length ≤ 1)
      = true) :
    (create_search_metadata search_id start_time search_duration site_names
        total_results errors).total_sites_searched
      = (create_search_metadata search_id start_time search_duration site_names
            total_results errors).successful_sites.length
        + (create_search_metadata search_id start_time search_duration site_names
            total_results errors).failed_sites.length := by
  have honce2 : ∀ s ∈ site_names,
      (errors.filter fun err => pySubstr (pyLower s) (pyLower err)).length ≤ 1 := by
    intro s hsmem
    have := List.all_eq_true.mp honce s hsmem
    exact of_decide_eq_true this
  unfold create_search_metadata
  simp only []
  have hcongr : site_names.filter
        (fun site => site ∉ errors.flatMap fun err =>
          site_names.filter fun x => pySubstr (pyLower x) (pyLower err))
      = site_names.filter
        (fun site => !(errors.any fun err => pySubstr (pyLower site) (pyLower err))) := by
    apply List.filter_congr
    intro site hsite
    have hiff := mem_failed_sites_iff
      (fun x err => pySubstr (pyLower x) (pyLower err)) errors site_names site hsite
    by_cases hin : site ∈ errors.flatMap fun err =>
        site_names.filter fun x => pySubstr (pyLower x) (pyLower err)
    · simp [hin, hiff.mp hin]
    · have hfalse : (errors.any fun err => pySubstr (pyLower site) (pyLower err)) = false := by
        cases hb : (errors.any fun err => pySubstr (pyLower site) (pyLower err))
        · rfl
        · exact absurd (hiff.mpr hb) hin
      simp [hin, hfalse]
  rw [hcongr]
  exact site_partition_of_unique_match
    (fun x err => pySubstr (pyLower x) (pyLower err)) errors site_names honce2

/-- Witness for the amended C4 on two requested sources and one error message
mentioning exactly one of them. -/
theorem metadata_site_partition_witness :
    ((["indeed", "linkedin"] : List String).all
        (fun site =>
          ((["indeed boom"] : List String).filter
            fun err => pySubstr (pyLower site) (pyLower err)).length ≤ 1) = true)
    ∧ (create_search_metadata "s1" 0 0 ["indeed", "linkedin"] 0
          ["indeed boom"]).total_sites_searched
        = (create_search_metadata "s1" 0 0 ["indeed", "linkedin"] 0
              ["indeed boom"]).successful_sites.length
          + (create_search_metadata "s1" 0 0 ["indeed", "linkedin"] 0
              ["indeed boom"]).failed_sites.length :=
  ⟨by decide,
   metadata_site_partition "s1" 0 0 ["indeed", "linkedin"] 0 ["indeed boom"] (by decide)⟩

/-! ## Claim theorems: row normalizer -/

theorem convert_ok_fields (fresh_id : String) (row : Row) (search_id : String)
    (job : WebJobPost)
    (h : convert_row_to_webjobpost fresh_id row search_id = .ok job) :
    job.location = parseLocationField (rowGet row "location")
    ∧ job.job_type = parseJobTypeField (rowGet row "job_type")
    ∧ parseCompensationField row = .ok job.compensation := by
  unfold convert_row_to_webjobpost at h
  split at h
  · exact absurd h (by simp)
  · rename_i compensation_data hcomp
    split at h
    · exact absurd h (by simp)
    · split at h
      · exact absurd h (by simp)
      · split at h
        · exact absurd h (by simp)
        · split at h
          · exact absurd h (by simp)
          · cases h
            exact ⟨rfl, rfl, hcomp⟩

/-- C2: the normalizer splits a non-absent string location on `", "`; fewer
than two components leave the location absent entirely, exactly two populate
city and state with the fixed default country "USA", and three or more
populate city, state and country from the first three components in order. -/
theorem location_split_policy (fresh_id : String) (row : Row) (search_id : String)
    (job : WebJobPost) (s : String)
    (hok : convert_row_to_webjobpost fresh_id row search_id = .ok job)
    (hloc : rowGet row "location" = .str s) :
    ((pySplit s ", ").length < 2 → job.location = Option.none)
    ∧ ((pySplit s ", ").length = 2 →
        job.location = some ⟨some ((pySplit s ", ").getD 0 ""),
                             some ((pySplit s ", ").getD 1 ""), some "USA"⟩)
    ∧ (3 ≤ (pySplit s ", ").length →
        job.location = some ⟨some ((pySplit s ", ").getD 0 ""),
                             some ((pySplit s ", ").getD 1 ""),
                             some ((pySplit s ", ").getD 2 "")⟩) := by
  have hfields := convert_ok_fields fresh_id row search_id job hok
  rw [hfields.1, hloc]
  unfold parseLocationField
  simp only [pdNotna, pyStr]
  refine ⟨?_, ?_, ?_⟩
  · intro hlt
    have hnot : ¬ 2 ≤ (pySplit s ", ").length := by omega
    rw [if_neg hnot]
    simp
  · intro hlen
    have hyes : 2 ≤ (pySplit s ", ").length := by omega
    rw [if_pos hyes]
    simp [hlen]
  · intro hge
    have hyes : 2 ≤ (pySplit s ", ").length := by omega
    rw [if_pos hyes]
    have h0 : 0 < (pySplit s ", ").length := by omega
    have h1 : 1 < (pySplit s ", ").length := by omega
    have h2 : 2 < (pySplit s ", ").length := by omega
    simp [h0, h1, h2]

/-- Witness for C2 on the two spec scenarios: a three-component location and
the single-token location "Remote". -/
theorem location_split_policy_witness :
    (convert_row_to_webjobpost "w1" sampleRowCity "s1" = .ok sampleJobCity
      ∧ rowGet sampleRowCity "location" = .str "San Francisco, CA, USA"
      ∧ 3 ≤ (pySplit "San Francisco, CA, USA" ", ").length
      ∧ convert_row_to_webjobpost "w2" sampleRowRemote "s1" = .ok sampleJobRemote
      ∧ rowGet sampleRowRemote "location" = .str "Remote"
      ∧ (pySplit "Remote" ", ").length < 2)
    ∧ sampleJobCity.location = some ⟨some "San Francisco", some "CA", some "USA"⟩
    ∧ sampleJobRemote.location = Option.none := by
  refine ⟨⟨rfl, rfl, by decide, rfl, rfl, by decide⟩, ?_, ?_⟩
  · have h := (location_split_policy "w1" sampleRowCity "s1" sampleJobCity
      "San Francisco, CA, USA" rfl rfl).2.2 (by decide)
    rw [h]
    decide
  · exact (location_split_policy "w2" sampleRowRemote "s1" sampleJobRemote
      "Remote" rfl rfl).1 (by decide)

/-- C8: a row cell that is null, NaN or the literal `"None"` placeholder in
the employment-type, compensation-interval or location column normalizes to an
absent field, never to a record carrying the placeholder text. -/
theorem placeholder_fields_absent (fresh_id : String) (row : Row) (search_id : String)
    (job : WebJobPost)
    (hok : convert_row_to_webjobpost fresh_id row search_id = .ok job) :
    (isAbsentOrPlaceholder (rowGet row "job_type") → job.job_type = Option.none)
    ∧ (isAbsentOrPlaceholder (rowGet row "interval") →
        job.compensation.bind Compensation.interval = Option.none)
    ∧ (isAbsentOrPlaceholder (rowGet row "location") → job.location = Option.none) := by
  have hfields := convert_ok_fields fresh_id row search_id job hok
  refine ⟨?_, ?_, ?_⟩
  · intro hv
    rw [hfields.2.1]
    rcases hv with hv | hv | hv <;> rw [hv]
    · simp [parseJobTypeField, pdNotna]
    · simp [parseJobTypeField, pdNotna]
    · decide
  · intro hv
    have hcomp := hfields.2.2
    unfold parseCompensationField at hcomp
    by_cases hc : (pdNotna (rowGet row "min_amount") || pdNotna (rowGet row "max_amount")
        || pdNotna (rowGet row "interval")) = true
    · rw [if_pos hc] at hcomp
      split at hcomp
      · exact absurd hcomp (by simp)
      · exact absurd hcomp (by simp)
      · simp only [Except.ok.injEq] at hcomp
        rw [← hcomp]
        simp only [Option.bind]
        rcases hv with hv | hv | hv <;> rw [hv] <;> decide
    · rw [if_neg hc] at hcomp
      simp only [Except.ok.injEq] at hcomp
      rw [← hcomp]
      rfl
  · intro hv
    rw [hfields.1]
    rcases hv with hv | hv | hv <;> rw [hv]
    · simp [parseLocationField, pdNotna]
    · simp [parseLocationField, pdNotna]
    · decide

/-- Witness for C8 on a row whose employment-type, interval and location cells
all carry the `"None"` placeholder (with a present salary so that the
compensation sub-object is actually built). -/
theorem placeholder_fields_absent_witness :
    (convert_row_to_webjobpost "w3" sampleRowPlaceholder "s1" = .ok sampleJobPlaceholder
      ∧ isAbsentOrPlaceholder (rowGet sampleRowPlaceholder "job_type")
      ∧ isAbsentOrPlaceholder (rowGet sampleRowPlaceholder "interval")
      ∧ isAbsentOrPlaceholder (rowGet sampleRowPlaceholder "location"))
    ∧ (sampleJobPlaceholder.job_type = Option.none
      ∧ sampleJobPlaceholder.compensation.bind Compensation.interval = Option.none
      ∧ sampleJobPlaceholder.location = Option.none) := by
  have h := placeholder_fields_absent "w3" sampleRowPlaceholder "s1" sampleJobPlaceholder rfl
  exact ⟨⟨rfl, by decide, by decide, by decide⟩,
    h.1 (by decide), h.2.1 (by decide), h.2.2 (by decide)⟩

/-! ## Claim theorems: export projector -/

/-- C5: exporting an empty batch fails in both the CSV exporter and the
request validator (an exception, so no bytes and in particular no header-only
file are ever produced), while every non-empty batch with the supported format
exports without raising. -/
theorem export_empty_fails_nonempty_succeeds (jobs : List WebJobPost)
    (search_id : String) (include_description include_company_details : Bool)
    (filename : Option String) (export_uuid : String) (now : Nat) :
    exceptIsOk (export_jobs_to_csv jobs search_id include_description
        include_company_details filename export_uuid now) = !jobs.isEmpty
    ∧ exceptIsOk (validate_export_request jobs ExportFormat.csv) = !jobs.isEmpty := by
  constructor
  · cases hj : jobs.isEmpty <;>
      simp [export_jobs_to_csv, hj, exceptIsOk]
  · cases hj : jobs.isEmpty <;>
      simp [validate_export_request, hj, exceptIsOk, ExportFormat.all]

theorem jobToRow_keys (job : WebJobPost) (d c : Bool) :
    (jobToRow job d c).map Prod.fst = csvColumns d c := by
  cases hl : job.location <;> cases hc2 : job.compensation <;> cases hj : job.job_type <;>
    cases d <;> cases c <;>
    simp [jobToRow, csvColumns, hl, hc2, hj]

theorem csvColumns_nodup (d c : Bool) : (csvColumns d c).Nodup := by
  cases d <;> cases c <;> decide

theorem foldl_insertKey_subset (r : List (String × PyValue)) (acc : List String)
    (h : ∀ kv ∈ r, kv.1 ∈ acc) :
    r.foldl dataframeColumns.insertKey acc = acc := by
  induction r with
  | nil => rfl
  | cons kv rest ih =>
    rw [List.foldl_cons]
    have hk : dataframeColumns.insertKey acc kv = acc := by
      simp [dataframeColumns.insertKey, h kv (by simp)]
    rw [hk]
    exact ih fun kv2 h2 => h kv2 (by simp [h2])

theorem foldl_insertKey_fresh (r : List (String × PyValue)) (acc : List String)
    (hnodup : (r.map Prod.fst).Nodup) (hdisj : ∀ kv ∈ r, kv.1 ∉ acc) :
    r.foldl dataframeColumns.insertKey acc = acc ++ r.map Prod.fst := by
  induction r generalizing acc with
  | nil => simp
  | cons kv rest ih =>
    simp only [List.map_cons, List.nodup_cons] at hnodup
    obtain ⟨hhead, htail⟩ := hnodup
    rw [List.foldl_cons]
    have hk : dataframeColumns.insertKey acc kv = acc ++ [kv.1] := by
      simp [dataframeColumns.insertKey, hdisj kv (by simp)]
    rw [hk]
    rw [ih (acc ++ [kv.1]) htail ?_]
    · simp
    · intro kv2 h2
      simp only [List.mem_append, List.mem_singleton]
      rintro (hin | heq)
      · exact hdisj kv2 (by simp [h2]) hin
      · exact hhead (heq ▸ List.mem_map_of_mem Prod.fst h2)

theorem rows_fold_noop (rows : List (List (String × PyValue))) (acc : List String)
    (h : ∀ r ∈ rows, ∀ kv ∈ r, kv.1 ∈ acc) :
    rows.foldl (fun a r => r.foldl dataframeColumns.insertKey a) acc = acc := by
  induction rows with
  | nil => rfl
  | cons r rest ih =>
    rw [List.foldl_cons, foldl_insertKey_subset r acc (h r (by simp))]
    exact ih fun r2 h2 => h r2 (by simp [h2])

theorem dataframeColumns_eq (jobs : List WebJobPost) (d c : Bool) (h : jobs ≠ []) :
    dataframeColumns (jobs_to_dataframe jobs d c) = csvColumns d c := by
  obtain ⟨j, rest, rfl⟩ := List.exists_cons_of_ne_nil h
  unfold jobs_to_dataframe dataframeColumns
  rw [List.map_cons, List.foldl_cons]
  have hfirst : (jobToRow j d c).foldl dataframeColumns.insertKey [] = csvColumns d c := by
    rw [foldl_insertKey_fresh (jobToRow j d c) []
      (by rw [jobToRow_keys]; exact csvColumns_nodup d c) (by simp)]
    rw [jobToRow_keys]
    simp
  rw [hfirst]
  apply rows_fold_noop
  intro r hr kv hkv
  obtain ⟨j2, _, rfl⟩ := List.mem_map.mp hr
  rw [← jobToRow_keys j2 d c]
  exact List.mem_map_of_mem Prod.fst hkv

/-- C9: for a non-empty batch the exported column list is a function of the
two inclusion flags alone (never of the data), and turning the description
flag off removes exactly the description column, leaving every other column in
the same relative order. -/
theorem export_columns_flag_frame (jobs : List WebJobPost)
    (include_description include_company_details : Bool) (h : jobs ≠ []) :
    dataframeColumns (jobs_to_dataframe jobs include_description include_company_details)
        = csvColumns include_description include_company_details
    ∧ dataframeColumns (jobs_to_dataframe jobs false include_company_details)
        = (dataframeColumns (jobs_to_dataframe jobs true include_company_details)).erase
            "description" := by
  refine ⟨dataframeColumns_eq jobs _ _ h, ?_⟩
  rw [dataframeColumns_eq jobs false include_company_details h,
    dataframeColumns_eq jobs true include_company_details h]
  cases include_company_details <;> decide

/-- Witness for C9 on a one-record batch. -/
theorem export_columns_flag_frame_witness :
    (([emptyWebJobPost] : List WebJobPost) ≠ [])
    ∧ (dataframeColumns (jobs_to_dataframe [emptyWebJobPost] true true)
          = csvColumns true true
      ∧ dataframeColumns (jobs_to_dataframe [emptyWebJobPost] false true)
          = (dataframeColumns (jobs_to_dataframe [emptyWebJobPost] true true)).erase
              "description") :=
  ⟨by simp, export_columns_flag_frame [emptyWebJobPost] true true (by simp)⟩

end JobSpyWeb
